import Mathlib

/-!
Shallow embedding of `src/dictionary.py` (Dictionary CLI): configuration
resolution (`Environ.load`), connection guard (`Connect`), query gateway
(`Queries`), and the interactive shell (`Shell`), together with theorems
settling the specification claims.
-/

deriving instance DecidableEq for Except

namespace Dictionary

/-- A value stored in the environment dictionary.  Values read from a file or
from the process environment are strings; the hard-coded default for `port`
is the Python integer `3306`. -/
inductive EnvVal where
  | str : String → EnvVal
  | int : Int → EnvVal
deriving DecidableEq, Repr

/-- Errors that `Environ.load` can raise: the `ValueError` from unpacking a
line whose `split` on the separator does not give exactly two fields
(`MalformedConfigLine` in the spec), the `KeyError` from the mapping
comprehension, and the `ValueError` from `int(...)` on a non-numeric port
(`InvalidPort` in the spec). -/
inductive LoadError where
  | malformedConfigLine : LoadError
  | keyError : String → LoadError
  | invalidPort : EnvVal → LoadError
deriving DecidableEq, Repr

/-- Python whitespace as used by `str.strip()` and `int(str)`: space, tab,
newline, carriage return, vertical tab, form feed. -/
def pyIsSpace (c : Char) : Bool :=
  c == ' ' || c == '\t' || c == '\n' || c == '\r' || c == '\x0b' || c == '\x0c'

/-- Python `s.strip()`: remove whitespace from both ends. -/
def pyStrip (s : String) : String :=
  ⟨((s.data.dropWhile pyIsSpace).reverse.dropWhile pyIsSpace).reverse⟩

/-- Python `s.split(sep)` for a one-character separator, over the character
list: splitting the empty string yields one empty field, and each occurrence
of the separator opens a new field. -/
def splitOnChar (sep : Char) : List Char → List (List Char)
  | [] => [[]]
  | c :: rest =>
    if c = sep then [] :: splitOnChar sep rest
    else
      match splitOnChar sep rest with
      | [] => [[c]]
      | h :: t => (c :: h) :: t

/-- Python `s.split('=')`. -/
def pySplitEq (s : String) : List String :=
  (splitOnChar '=' s.data).map (fun l => ⟨l⟩)

/-- Auxiliary digit-run parser for Python `int(str)`: ASCII digits optionally
separated by single underscores (no leading, trailing, or doubled
underscore).  `seen` records whether a digit has been consumed. -/
def pyNatAux : List Char → Nat → Bool → Option Nat
  | [], acc, seen => if seen then some acc else none
  | c :: rest, acc, seen =>
    if c.isDigit then pyNatAux rest (acc * 10 + (c.toNat - 48)) true
    else if c = '_' then
      match rest with
      | [] => none
      | d :: _ => if seen && d.isDigit then pyNatAux rest acc seen else none
    else none

/-- Python `int(s)` on a string: surrounding whitespace stripped, optional
sign, then a non-empty digit run; `none` models the raised `ValueError`. -/
def pyIntOfString (s : String) : Option Int :=
  match (pyStrip s).data with
  | [] => none
  | '+' :: rest => (pyNatAux rest 0 false).map Int.ofNat
  | '-' :: rest => (pyNatAux rest 0 false).map (fun n => -(n : Int))
  | l => (pyNatAux l 0 false).map Int.ofNat

/-- Python `int(x)` on an environment value: an integer passes through,
a string is parsed. -/
def pyInt : EnvVal → Option Int
  | .int n => some n
  | .str s => pyIntOfString s

/-- The `__CONFIG_MAP` of `Environ`: internal parameter name paired with the
environment-variable name, in the dictionary insertion order of the source. -/
def CONFIG_MAP : List (String × String) :=
  [("host", "MYSQL_HOST"), ("port", "MYSQL_PORT"), ("user", "MYSQL_USER"),
   ("password", "MYSQL_PASSWORD"), ("database", "MYSQL_DATABASE"),
   ("auth_plugin", "MYSQL_AUTH")]

/-- The six recognized environment-variable names, in `__CONFIG_MAP` order. -/
def varNames : List String := CONFIG_MAP.map Prod.snd

/-- The environment dictionary before the final port coercion: one field per
key of `__CONFIG_MAP`. -/
structure RawEnv where
  host : EnvVal
  port : EnvVal
  user : EnvVal
  password : EnvVal
  database : EnvVal
  auth_plugin : EnvVal
deriving DecidableEq, Repr

/-- The result of `Environ.load` after `env.update(port=int(env.get('port')))`:
the port is an integer, the other fields are whatever the source provided. -/
structure ConnectionParams where
  host : EnvVal
  port : Int
  user : EnvVal
  password : EnvVal
  database : EnvVal
  auth_plugin : EnvVal
deriving DecidableEq, Repr

/-- `Environ._DEFAULT_ENV`: the hard-coded default root login. -/
def DEFAULT_ENV : RawEnv :=
  { host := .str "localhost", port := .int 3306, user := .str "root",
    password := .str "Password", database := .str "dictionary",
    auth_plugin := .str "caching_sha2_password" }

/-- The final step of `Environ.load`: `env.update(port=int(env.get('port')))`.
A non-numeric port raises `ValueError` (`InvalidPort`). -/
def finalize (e : RawEnv) : Except LoadError ConnectionParams :=
  match pyInt e.port with
  | some n => .ok { host := e.host, port := n, user := e.user,
                    password := e.password, database := e.database,
                    auth_plugin := e.auth_plugin }
  | none => .error (.invalidPort e.port)

/-- `line.strip().split('=')` followed by the two-element tuple unpacking:
`none` models the `ValueError` raised when the stripped line does not split
into exactly two fields, i.e. does not contain exactly one separator. -/
def parseLine (line : String) : Option (String × String) :=
  match pySplitEq (pyStrip line) with
  | [k, v] => some (k, v)
  | _ => none

/-- The file-reading loop of `Environ.load`: each line is parsed into a
`KEY=VALUE` pair; the first malformed line aborts the whole parse. -/
def parseFile : List String → Except LoadError (List (String × String))
  | [] => .ok []
  | l :: rest =>
    match parseLine l with
    | none => .error .malformedConfigLine
    | some kv =>
      match parseFile rest with
      | .error e => .error e
      | .ok kvs => .ok (kv :: kvs)

/-- Lookup in the `envvars` dictionary built by the file loop: repeated
assignments to a key overwrite, so the last matching pair wins. -/
def dictGet (pairs : List (String × String)) (k : String) : Option String :=
  (pairs.reverse.find? (fun p => p.1 == k)).map Prod.snd

/-- The mapping comprehension
`{key: envvars[val] for key, val in __CONFIG_MAP.items()}`: each of the six
environment-variable names is looked up; a missing one raises `KeyError`,
in the insertion order of `__CONFIG_MAP`. -/
def mapConfig (get : String → Option String) : Except LoadError RawEnv :=
  match get "MYSQL_HOST" with
  | none => .error (.keyError "MYSQL_HOST")
  | some h =>
  match get "MYSQL_PORT" with
  | none => .error (.keyError "MYSQL_PORT")
  | some p =>
  match get "MYSQL_USER" with
  | none => .error (.keyError "MYSQL_USER")
  | some u =>
  match get "MYSQL_PASSWORD" with
  | none => .error (.keyError "MYSQL_PASSWORD")
  | some pw =>
  match get "MYSQL_DATABASE" with
  | none => .error (.keyError "MYSQL_DATABASE")
  | some d =>
  match get "MYSQL_AUTH" with
  | none => .error (.keyError "MYSQL_AUTH")
  | some a =>
    .ok { host := .str h, port := .str p, user := .str u, password := .str pw,
          database := .str d, auth_plugin := .str a }

/-- The raw environment dictionary of the file branch of `Environ.load`,
before the port coercion. -/
def fileRaw (lines : List String) : Except LoadError RawEnv :=
  match parseFile lines with
  | .error e => .error e
  | .ok pairs => mapConfig (dictGet pairs)

/-- `Environ.load(file)` with a file: parse the lines, map the six recognized
keys, coerce the port. -/
def loadFile (lines : List String) : Except LoadError ConnectionParams :=
  match fileRaw lines with
  | .error e => .error e
  | .ok raw => finalize raw

/-- The truthiness test `all(os.environ.get(v, 0) for v in __CONFIG_MAP.values())`:
true exactly when every one of the six variables is present with a non-empty
value (a missing variable contributes the falsy `0`, an empty string is falsy). -/
def envAllPresent (env : String → Option String) : Bool :=
  varNames.all (fun v =>
    match env v with
    | some s => s != ""
    | none => false)

/-- The comprehension `{key: os.getenv(val) for key, val in __CONFIG_MAP.items()}`
taken on a snapshot where every variable is present (the only case in which
the source evaluates it); `getD ""` is never exercised under that guard. -/
def envRaw (env : String → Option String) : RawEnv :=
  { host := .str ((env "MYSQL_HOST").getD ""),
    port := .str ((env "MYSQL_PORT").getD ""),
    user := .str ((env "MYSQL_USER").getD ""),
    password := .str ((env "MYSQL_PASSWORD").getD ""),
    database := .str ((env "MYSQL_DATABASE").getD ""),
    auth_plugin := .str ((env "MYSQL_AUTH").getD "") }

/-- The raw environment dictionary of the no-file branch of `Environ.load`:
the full set of environment variables when all six are present and non-empty,
the hard-coded defaults otherwise (all-or-nothing). -/
def rawNoFile (env : String → Option String) : RawEnv :=
  if envAllPresent env then envRaw env else DEFAULT_ENV

/-- `Environ.load()` with no file: environment snapshot or defaults, then the
port coercion. -/
def loadNoFile (env : String → Option String) : Except LoadError ConnectionParams :=
  finalize (rawNoFile env)

/-- The default parameter set as returned through the port coercion. -/
def defaultParams : ConnectionParams :=
  { host := .str "localhost", port := 3306, user := .str "root",
    password := .str "Password", database := .str "dictionary",
    auth_plugin := .str "caching_sha2_password" }

/-! ## Connection guard: error classification (`Connect.__enter__`) -/

/-- `mysql.connector.errorcode.ER_ACCESS_DENIED_ERROR`. -/
def ER_ACCESS_DENIED_ERROR : Nat := 1045

/-- `mysql.connector.errorcode.ER_DBACCESS_DENIED_ERROR`. -/
def ER_DBACCESS_DENIED_ERROR : Nat := 1044

/-- `mysql.connector.errorcode.ER_BAD_DB_ERROR`. -/
def ER_BAD_DB_ERROR : Nat := 1049

/-- A raw `mysql.connector` driver error: its error number and message. -/
structure DriverError where
  errno : Nat
  msg : String
deriving DecidableEq, Repr

/-- The classified outcome of a failed connection attempt: the three
`ConnectionFailureError` subclasses raised by `Connect.__enter__`, or the
raw driver error re-raised unclassified. -/
inductive ConnectOutcome where
  | incorrectLogin : String → ConnectOutcome
  | accessDenied : String → ConnectOutcome
  | databaseNotFound : String → ConnectOutcome
  | unclassified : DriverError → ConnectOutcome
deriving DecidableEq, Repr

/-- The fixed message carried by `IncorrectLogin`. -/
def incorrectLoginMsg : String :=
  "Could not login to host with user/password provided."

/-- The `except Error` branch of `Connect.__enter__`: branch on `err.errno`
against the three recognized error codes; anything else is re-raised as is. -/
def classify (err : DriverError) : ConnectOutcome :=
  if err.errno = ER_ACCESS_DENIED_ERROR then .incorrectLogin incorrectLoginMsg
  else if err.errno = ER_DBACCESS_DENIED_ERROR then .accessDenied err.msg
  else if err.errno = ER_BAD_DB_ERROR then .databaseNotFound err.msg
  else .unclassified err

/-! ## Traces and exceptions -/

/-- An observable event: a string written to stdout, a SQL statement handed
to the cursor, or the closing of the driver connection. -/
inductive Event where
  | print : String → Event
  | execute : String → Event
  | closeConn : Event
deriving DecidableEq, Repr

/-- The exceptions that can reach `Shell.run`: a `KeyboardInterrupt`, a raw
`mysql.connector` `Error`, one of the `ConnectionFailureError` subclasses,
or any other ordinary `Exception`. -/
inductive Exc where
  | keyboardInterrupt : Exc
  | dbError : DriverError → Exc
  | connFailure : ConnectOutcome → Exc
  | other : String → Exc
deriving DecidableEq, Repr

/-- The `str(...)` rendering used when an exception is printed by
`Shell._exit` (for `IncorrectLogin` the fixed message, for the other
classified failures the driver message stored in them, for a driver error
or generic exception its own message, for `KeyboardInterrupt` the empty
string). -/
def excStr : Exc → String
  | .keyboardInterrupt => ""
  | .dbError e => e.msg
  | .connFailure (.incorrectLogin m) => m
  | .connFailure (.accessDenied m) => m
  | .connFailure (.databaseNotFound m) => m
  | .connFailure (.unclassified e) => e.msg
  | .other m => m

/-- The result of running a block of code: normal completion with a value,
or an exception propagating out. -/
inductive BodyResult (α : Type) where
  | value : α → BodyResult α
  | exc : Exc → BodyResult α
deriving DecidableEq, Repr

/-- The stdout notice written by `Connect.__enter__` on success. -/
def connectedMsg : String := "Connected successfully.\n"

/-- The stdout notice written by `Connect.__exit__`. -/
def closedMsg : String := "\nConnection closed.\n"

/-- The `with Connect(credentials) as conn:` construct.  If the driver
connect fails, `__enter__` classifies and raises, and `__exit__` never runs.
If it succeeds, the body runs, and on every way out of the block — normal
completion or any exception — `__exit__` closes the connection and prints
the close notice exactly once before the result propagates. -/
def withConnect (attempt : Except DriverError Unit)
    (body : List Event × BodyResult Unit) : List Event × Except Exc Unit :=
  match attempt with
  | .error e => ([], .error (.connFailure (classify e)))
  | .ok _ =>
    ([Event.print connectedMsg] ++ body.1 ++ [Event.closeConn, Event.print closedMsg],
     match body.2 with
     | .value _ => .ok ()
     | .exc e => .error e)

/-! ## Query gateway (`Queries`) -/

/-- `Queries.version`. -/
def versionSQL : String := "SHOW VARIABLES like 'version';"

/-- `Queries._select`. -/
def selectSQL : String := "SELECT word FROM words WHERE word = %(word)s;"

/-- `Queries._insert`. -/
def insertSQL : String := "INSERT INTO words (word) VALUES (%(new_word)s);"

/-- `Queries._update`. -/
def updateSQL : String := "UPDATE words SET word = %(new_word)s WHERE word = %(word)s;"

/-- `Queries._delete`. -/
def deleteSQL : String := "DELETE FROM words WHERE word = %(word)s;"

/-- `Queries.__init__`: issue the version-introspection query; on success
print the reported version (`res['Value']`, modelled by the oracle string),
on failure the bare `raise` re-raises the same exception to the caller. -/
def queriesInit (versionCheck : Except Exc String) : List Event × Except Exc Unit :=
  match versionCheck with
  | .ok v => ([Event.execute versionSQL, Event.print ("MySQL v" ++ v ++ "\n")], .ok ())
  | .error e => ([Event.execute versionSQL], .error e)

/-! ## The words table: relational semantics of the four statements

The `words` table is modelled as the list of values of its `word` column in
row order; the cursor is a dictionary cursor, so a fetched row is the value
of its `word` field. -/

/-- The rows of the `words` table, in order. -/
abbrev Table : Type := List String

/-- `Queries.select`: `SELECT ... WHERE word = w` followed by `fetchone()` —
the first row whose word equals `w`, or `none`. -/
def selectQ (t : Table) (w : String) : Option String :=
  (List.filter (fun r => r == w) t).head?

/-- `Queries.insert`: `INSERT INTO words (word) VALUES (new)` appends a row
(committed immediately). -/
def insertQ (t : Table) (new : String) : Table :=
  List.append t [new]

/-- `Queries.update`: `UPDATE words SET word = new WHERE word = w` rewrites
every row matching `w` (committed immediately). -/
def updateQ (t : Table) (w new : String) : Table :=
  List.map (fun r => if r == w then new else r) t

/-- `Queries.delete`: `DELETE FROM words WHERE word = w` removes every row
matching `w` (committed immediately). -/
def deleteQ (t : Table) (w : String) : Table :=
  List.filter (fun r => !(r == w)) t

/-! ## The shell (`Shell.run`) -/

/-- The nondeterministic inputs of one `Shell.run` execution: how the login
prompts end, how the driver connect attempt ends, how the gateway's version
self-test ends, and the exception that eventually ends the main loop (the
loop guard stays true until an exception is re-raised, so the loop never
completes normally). -/
structure RunConfig where
  login : Except Exc Unit
  attempt : Except DriverError Unit
  versionCheck : Except Exc String
  loopResult : Exc

/-- The body of the `with` block in `Shell.run`: construct `Queries` (whose
failure propagates), then run the main loop until its exception. -/
def shellBody (cfg : RunConfig) : List Event × BodyResult Unit :=
  match queriesInit cfg.versionCheck with
  | (tr, .error e) => (tr, .exc e)
  | (tr, .ok _) => (tr, .exc cfg.loopResult)

/-- The ordered `except` clauses of `Shell.run` feeding `Shell._exit`:
`IncorrectLogin` exits 0, a driver `Error` exits 1, any other `Exception`
exits 1, and `KeyboardInterrupt` — which is not an `Exception` subclass, so
it falls through to its own clause — exits 0. -/
def shellExcept : Exc → Nat
  | .connFailure (.incorrectLogin _) => 0
  | .dbError _ => 1
  | .keyboardInterrupt => 0
  | .connFailure _ => 1
  | .other _ => 1

/-- The message printed by `Shell._exit`. -/
def exitMsg (e : Exc) : String := excStr e ++ "\nExiting."

/-- `Shell.title` and `Shell.instr` printed by `Shell._init`. -/
def bannerEvents : List Event :=
  [Event.print "# ========== Dictionary ========== #\n",
   Event.print "# Press CTRL+C to quit.\n"]

/-- `Shell.run`: banner, login, the connection scope around gateway
construction and the main loop, and the top-level handlers that print the
exit message and choose the process exit code. -/
def shellRun (cfg : RunConfig) : List Event × Nat :=
  match cfg.login with
  | .error e => (bannerEvents ++ [Event.print (exitMsg e)], shellExcept e)
  | .ok _ =>
    match withConnect cfg.attempt (shellBody cfg) with
    | (tr, .ok _) => (bannerEvents ++ tr, 0)
    | (tr, .error e) =>
      (bannerEvents ++ tr ++ [Event.print (exitMsg e)], shellExcept e)

/-- The exception that ends a `Shell.run` execution (every execution ends in
one: the loop itself never returns normally). -/
def endExc (cfg : RunConfig) : Exc :=
  match cfg.login with
  | .error e => e
  | .ok _ =>
    match cfg.attempt with
    | .error de => .connFailure (classify de)
    | .ok _ =>
      match cfg.versionCheck with
      | .error e => e
      | .ok _ => cfg.loopResult

/-- Number of connection closes in a trace. -/
def closeConnCount (tr : List Event) : Nat :=
  List.count Event.closeConn tr

/-- Number of close notifications printed in a trace. -/
def closeMsgCount (tr : List Event) : Nat :=
  List.count (Event.print closedMsg) tr

/-! ## The yes/no prompt (`Shell._prompt`) -/

/-- The tokens accepted by `Shell._prompt`. -/
def validTokens : List String := ["y", "Y", "yes", "Yes", "n", "N", "no", "No"]

/-- The tokens returning `True`. -/
def yesTokens : List String := ["y", "Y", "yes", "Yes"]

/-- The tokens returning `False`. -/
def noTokens : List String := ["n", "N", "no", "No"]

/-- `Shell._prompt` over a queue of user answers: consume answers, printing
one re-prompt message per invalid token, until a valid token decides the
boolean; `none` models the queue running dry (blocked input).  The returned
number is how many re-prompt messages were printed. -/
def promptLoop : List String → Option (Bool × Nat)
  | [] => none
  | s :: rest =>
    if s ∈ validTokens then
      if s ∈ yesTokens then some (true, 0) else some (false, 0)
    else
      match promptLoop rest with
      | none => none
      | some (b, n) => some (b, n + 1)

/-! # Helper lemmas -/

/-- A word present in the table is found by `select`, and the fetched row
carries exactly that word (the `WHERE` clause filters on equality). -/
theorem selectQ_mem {t : Table} {w : String} (h : w ∈ t) : selectQ t w = some w := by
  induction t with
  | nil => cases h
  | cons a l ih =>
    by_cases hb : a = w
    · subst hb
      simp [selectQ, List.filter_cons]
    · have hb2 : (a == w) = false := by simpa using hb
      have hw : w ∈ l := by
        rcases List.mem_cons.mp h with h1 | h2
        · exact absurd h1.symm hb
        · exact h2
      simpa [selectQ, List.filter_cons, hb2] using ih hw

/-- A word absent from the table is not found by `select`. -/
theorem selectQ_not_mem {t : Table} {w : String} (h : w ∉ t) : selectQ t w = none := by
  have hf : List.filter (fun r => r == w) t = [] := by
    rw [List.filter_eq_nil_iff]
    intro a ha
    simp only [beq_iff_eq]
    intro rfl2
    exact h (rfl2 ▸ ha)
  simp [selectQ, hf]

/-- After `update w new` with `new ≠ w`, the old word is gone. -/
theorem updateQ_not_mem {t : Table} {w new : String} (hne : w ≠ new) :
    w ∉ updateQ t w new := by
  intro hmem
  rcases List.mem_map.mp hmem with ⟨r, _, hr⟩
  by_cases hrw : r = w
  · subst hrw
    simp only [beq_self_eq_true, if_true] at hr
    exact hne hr.symm
  · have : (r == w) = false := by simpa using hrw
    rw [this] at hr
    simp only [Bool.false_eq_true, if_false] at hr
    exact hrw hr

/-- After `update w new` on a table containing `w`, the new word is present. -/
theorem updateQ_mem {t : Table} {w : String} (new : String) (h : w ∈ t) :
    new ∈ updateQ t w new := by
  refine List.mem_map.mpr ⟨w, h, ?_⟩
  simp

/-- Invalid answers pass through the prompt loop, each adding one re-prompt. -/
theorem promptLoop_append (invalids : List String)
    (hinv : ∀ s ∈ invalids, s ∉ validTokens) (rest : List String) :
    promptLoop (invalids ++ rest) =
      (promptLoop rest).map (fun p => (p.1, p.2 + invalids.length)) := by
  induction invalids with
  | nil =>
    cases h : promptLoop rest with
    | none => simp [h]
    | some p => simp [h]
  | cons s l ih =>
    have hs : s ∉ validTokens := hinv s (by simp)
    have ih2 := ih (fun x hx => hinv x (by simp [hx]))
    simp only [List.cons_append, promptLoop, List.append_eq]
    rw [if_neg hs, ih2]
    cases h : promptLoop rest with
    | none => simp
    | some p => simp [Nat.add_assoc]

/-! # Claim theorems -/

/-- **C3.** Every failed connection attempt is classified by its error code:
access-denied-by-credentials (`ER_ACCESS_DENIED_ERROR`) raises
`IncorrectLogin` with the fixed user/password message,
access-denied-by-database-privilege (`ER_DBACCESS_DENIED_ERROR`) raises
`AccessDenied` with the driver message, unknown-database (`ER_BAD_DB_ERROR`)
raises `DatabaseNotFound` with the driver message, and every other driver
error is re-raised unclassified; the classified failure is what propagates
out of the connection scope. -/
theorem connect_enter_classifies_by_errno (err : DriverError) :
    (err.errno = ER_ACCESS_DENIED_ERROR →
      classify err = .incorrectLogin incorrectLoginMsg) ∧
    (err.errno = ER_DBACCESS_DENIED_ERROR → classify err = .accessDenied err.msg) ∧
    (err.errno = ER_BAD_DB_ERROR → classify err = .databaseNotFound err.msg) ∧
    (err.errno ≠ ER_ACCESS_DENIED_ERROR → err.errno ≠ ER_DBACCESS_DENIED_ERROR →
      err.errno ≠ ER_BAD_DB_ERROR → classify err = .unclassified err) ∧
    (∀ body, withConnect (.error err) body =
      ([], .error (.connFailure (classify err)))) := by
  obtain ⟨n, m⟩ := err
  refine ⟨?_, ?_, ?_, ?_, fun body => rfl⟩
  · intro h
    simp only at h
    simp [classify, h]
  · intro h
    simp only at h
    simp [classify, h, ER_ACCESS_DENIED_ERROR, ER_DBACCESS_DENIED_ERROR]
  · intro h
    simp only at h
    simp [classify, h, ER_ACCESS_DENIED_ERROR, ER_DBACCESS_DENIED_ERROR,
          ER_BAD_DB_ERROR]
  · intro h1 h2 h3
    simp only at h1 h2 h3
    simp [classify, h1, h2, h3]

/-- Witness for C3 at the four kinds of driver error. -/
theorem connect_enter_classifies_by_errno_witness :
    classify ⟨1045, "m"⟩ = .incorrectLogin incorrectLoginMsg ∧
    classify ⟨1044, "m"⟩ = .accessDenied "m" ∧
    classify ⟨1049, "m"⟩ = .databaseNotFound "m" ∧
    classify ⟨2013, "m"⟩ = .unclassified ⟨2013, "m"⟩ :=
  ⟨(connect_enter_classifies_by_errno ⟨1045, "m"⟩).1 rfl,
   (connect_enter_classifies_by_errno ⟨1044, "m"⟩).2.1 rfl,
   (connect_enter_classifies_by_errno ⟨1049, "m"⟩).2.2.1 rfl,
   (connect_enter_classifies_by_errno ⟨2013, "m"⟩).2.2.2.1
     (by decide) (by decide) (by decide)⟩

/-- **C5, counterexample.** The claim as stated quantifies over every pair of
words; at `w = new = "foo"` on the table `["foo"]`, `update("foo","foo")`
leaves the row in place and `select("foo")` still returns it, so the
"select(w) returns nothing" half fails. -/
theorem queries_round_trip_cex :
    ¬ ((∀ (t : Table) (w : String), selectQ (insertQ t w) w = some w) ∧
       (∀ (t : Table) (w new : String), w ∈ t →
         selectQ (updateQ t w new) new = some new ∧
         selectQ (updateQ t w new) w = none)) := by
  intro h
  have h2 := (h.2 ["foo"] "foo" "foo" (by decide)).2
  rw [show selectQ (updateQ ["foo"] "foo" "foo") "foo" = some "foo" from by decide]
    at h2
  cases h2

/-- **C5, amended.** `insert(w)` followed by `select(w)` returns a record
whose word equals `w`; and for every pair of *distinct* words `w ≠ new` with
`w` present, `update(w, new)` followed by `select(new)` returns a record
whose word equals `new` while `select(w)` returns nothing. -/
theorem queries_round_trip :
    (∀ (t : Table) (w : String), selectQ (insertQ t w) w = some w) ∧
    (∀ (t : Table) (w new : String), w ≠ new → w ∈ t →
      selectQ (updateQ t w new) new = some new ∧
      selectQ (updateQ t w new) w = none) := by
  constructor
  · intro t w
    exact selectQ_mem (by simp [insertQ])
  · intro t w new hne hmem
    exact ⟨selectQ_mem (updateQ_mem new hmem), selectQ_not_mem (updateQ_not_mem hne)⟩

/-- Witness for C5 (amended) at the round trip of the spec example. -/
theorem queries_round_trip_witness :
    selectQ (insertQ ["alpha"] "foo") "foo" = some "foo" ∧
    selectQ (updateQ ["foo"] "foo" "bar") "bar" = some "bar" ∧
    selectQ (updateQ ["foo"] "foo" "bar") "foo" = none :=
  ⟨queries_round_trip.1 ["alpha"] "foo",
   (queries_round_trip.2 ["foo"] "foo" "bar" (by decide) (by decide)).1,
   (queries_round_trip.2 ["foo"] "foo" "bar" (by decide) (by decide)).2⟩

/-- **C9.** Feeding any number of tokens outside the accepted set followed by
an accepted token makes the prompt print exactly one re-prompt per invalid
token and return exactly one boolean matching the token's polarity, where
the accepted tokens are `y`, `yes`, `n`, `no` and their capitalized
variants. -/
theorem shell_prompt_loop (invalids : List String) (last : String)
    (hinv : ∀ s ∈ invalids, s ∉ validTokens) :
    (last ∈ yesTokens →
      promptLoop (invalids ++ [last]) = some (true, invalids.length)) ∧
    (last ∈ noTokens →
      promptLoop (invalids ++ [last]) = some (false, invalids.length)) := by
  constructor
  · intro hy
    rw [promptLoop_append invalids hinv [last]]
    have h1 : promptLoop [last] = some (true, 0) := by
      simp only [yesTokens, List.mem_cons, List.not_mem_nil, or_false] at hy
      rcases hy with rfl | rfl | rfl | rfl
      · decide
      · decide
      · decide
      · decide
    simp [h1]
  · intro hn
    rw [promptLoop_append invalids hinv [last]]
    have h1 : promptLoop [last] = some (false, 0) := by
      simp only [noTokens, List.mem_cons, List.not_mem_nil, or_false] at hn
      rcases hn with rfl | rfl | rfl | rfl
      · decide
      · decide
      · decide
      · decide
    simp [h1]

/-- Witness for C9: two invalid answers, then `Y`; one invalid answer, then
`no`. -/
theorem shell_prompt_loop_witness :
    promptLoop (["maybe", "YES"] ++ ["Y"]) = some (true, 2) ∧
    promptLoop (["nah"] ++ ["no"]) = some (false, 1) :=
  ⟨(shell_prompt_loop ["maybe", "YES"] "Y" (by decide)).1 (by decide),
   (shell_prompt_loop ["nah"] "no" (by decide)).2 (by decide)⟩

/-- **C7.** On every resolution source the port of the returned parameter set
is the integer coercion of the port the source produced, performed at the
end of resolution; a non-numeric port makes resolution fail with
`InvalidPort`; the hard-coded defaults coerce to the default parameter
set. -/
theorem environ_load_port_coercion (env : String → Option String)
    (lines : List String) :
    (∀ cp, loadNoFile env = .ok cp → pyInt (rawNoFile env).port = some cp.port) ∧
    (pyInt (rawNoFile env).port = none →
      loadNoFile env = .error (.invalidPort (rawNoFile env).port)) ∧
    (∀ raw, fileRaw lines = .ok raw →
      (∀ cp, loadFile lines = .ok cp → pyInt raw.port = some cp.port) ∧
      (pyInt raw.port = none →
        loadFile lines = .error (.invalidPort raw.port))) ∧
    finalize DEFAULT_ENV = .ok defaultParams := by
  refine ⟨?_, ?_, ?_, rfl⟩
  · intro cp h
    unfold loadNoFile finalize at h
    cases hp : pyInt (rawNoFile env).port with
    | none => rw [hp] at h; cases h
    | some n =>
      rw [hp] at h
      cases h
      rfl
  · intro hp
    unfold loadNoFile finalize
    rw [hp]
  · intro raw hraw
    constructor
    · intro cp h
      unfold loadFile at h
      rw [hraw] at h
      dsimp only at h
      unfold finalize at h
      cases hp : pyInt raw.port with
      | none => rw [hp] at h; cases h
      | some n =>
        rw [hp] at h
        cases h
        rfl
    · intro hp
      unfold loadFile
      rw [hraw]
      dsimp only
      unfold finalize
      rw [hp]

/-- An environment snapshot with all six variables present and non-empty. -/
def envFull : String → Option String := fun v =>
  if v = "MYSQL_HOST" then some "example"
  else if v = "MYSQL_PORT" then some "1234"
  else if v = "MYSQL_USER" then some "alice"
  else if v = "MYSQL_PASSWORD" then some "s3cret"
  else if v = "MYSQL_DATABASE" then some "words"
  else if v = "MYSQL_AUTH" then some "mysql_native_password"
  else none

/-- An environment snapshot missing `MYSQL_PORT` but carrying all the other
variables. -/
def envPartial : String → Option String := fun v =>
  if v = "MYSQL_PORT" then none else some "x"

/-- An environment snapshot whose six variables are all the non-numeric
string `notanumber`. -/
def envBadPort : String → Option String := fun _ => some "notanumber"

/-- Witness for C7: a non-numeric port from the environment fails with
`InvalidPort`; a numeric file port is returned as an integer; the numeric
environment port of `envFull` coerces to the integer `1234`. -/
theorem environ_load_port_coercion_witness :
    loadNoFile envBadPort = .error (.invalidPort (rawNoFile envBadPort).port) ∧
    loadFile ["MYSQL_HOST=h", "MYSQL_PORT=9x", "MYSQL_USER=u",
              "MYSQL_PASSWORD=p", "MYSQL_DATABASE=d", "MYSQL_AUTH=a"] =
      .error (.invalidPort (EnvVal.str "9x")) ∧
    pyInt (rawNoFile envFull).port = some 1234 :=
  ⟨(environ_load_port_coercion envBadPort []).2.1 (by decide),
   ((environ_load_port_coercion envBadPort
       ["MYSQL_HOST=h", "MYSQL_PORT=9x", "MYSQL_USER=u",
        "MYSQL_PASSWORD=p", "MYSQL_DATABASE=d", "MYSQL_AUTH=a"]).2.2.1
     { host := .str "h", port := .str "9x", user := .str "u",
       password := .str "p", database := .str "d", auth_plugin := .str "a" }
     (by decide)).2 (by decide),
   (environ_load_port_coercion envFull []).1
     { host := .str "example", port := 1234, user := .str "alice",
       password := .str "s3cret", database := .str "words",
       auth_plugin := .str "mysql_native_password" } (by decide)⟩

/-- **C1.** With no file, `Environ.load` is all-or-nothing over the six
environment variables: if all six are present and non-empty the returned
parameters are exactly those values with the port coerced to an integer,
and if any one is missing or empty the result is exactly the hard-coded
default parameter set, never a partial mix. -/
theorem environ_load_no_file_all_or_nothing (env : String → Option String) :
    (∀ hst prt usr pwd dbn aut n,
      env "MYSQL_HOST" = some hst → env "MYSQL_PORT" = some prt →
      env "MYSQL_USER" = some usr → env "MYSQL_PASSWORD" = some pwd →
      env "MYSQL_DATABASE" = some dbn → env "MYSQL_AUTH" = some aut →
      hst ≠ "" → prt ≠ "" → usr ≠ "" → pwd ≠ "" → dbn ≠ "" → aut ≠ "" →
      pyIntOfString prt = some n →
      loadNoFile env = .ok { host := .str hst, port := n, user := .str usr,
                             password := .str pwd, database := .str dbn,
                             auth_plugin := .str aut }) ∧
    (∀ v ∈ varNames, (env v = none ∨ env v = some "") →
      loadNoFile env = .ok defaultParams) := by
  constructor
  · intro hst prt usr pwd dbn aut n e1 e2 e3 e4 e5 e6 ne1 ne2 ne3 ne4 ne5 ne6 hp
    have hall : envAllPresent env = true := by
      simp [envAllPresent, varNames, CONFIG_MAP, e1, e2, e3, e4, e5, e6,
            ne1, ne2, ne3, ne4, ne5, ne6]
    simp [loadNoFile, rawNoFile, hall, envRaw, e1, e2, e3, e4, e5, e6,
          finalize, pyInt, hp]
  · intro v hv hcase
    have hall : envAllPresent env = false := by
      rw [Bool.eq_false_iff]
      intro hta
      have hpv := List.all_eq_true.mp hta v hv
      cases hcase with
      | inl h => rw [h] at hpv; simp at hpv
      | inr h => rw [h] at hpv; simp at hpv
    unfold loadNoFile rawNoFile
    rw [hall]
    rfl

/-- Witness for C1: the full snapshot yields the six values with an integer
port; the snapshot missing `MYSQL_PORT` yields exactly the defaults. -/
theorem environ_load_no_file_all_or_nothing_witness :
    loadNoFile envFull =
      .ok { host := .str "example", port := 1234, user := .str "alice",
            password := .str "s3cret", database := .str "words",
            auth_plugin := .str "mysql_native_password" } ∧
    loadNoFile envPartial = .ok defaultParams :=
  ⟨(environ_load_no_file_all_or_nothing envFull).1 "example" "1234" "alice"
     "s3cret" "words" "mysql_native_password" 1234
     (by decide) (by decide) (by decide) (by decide) (by decide) (by decide)
     (by decide) (by decide) (by decide) (by decide) (by decide) (by decide)
     (by decide),
   (environ_load_no_file_all_or_nothing envPartial).2 "MYSQL_PORT" (by decide)
     (Or.inl (by decide))⟩

/-- The stripped line splits on the separator into exactly two fields
(Python unpacking `key, val = line.strip().split('=')` succeeds). -/
def goodLine (l : String) : Bool := (pySplitEq (pyStrip l)).length == 2

/-- The two fields of a line accepted by the unpacking. -/
def splitKV (l : String) : String × String :=
  match pySplitEq (pyStrip l) with
  | [k, v] => (k, v)
  | _ => ("", "")

/-- A line with exactly one separator parses to its two fields. -/
theorem parseLine_of_goodLine {l : String} (h : goodLine l = true) :
    parseLine l = some (splitKV l) := by
  unfold goodLine at h
  unfold parseLine splitKV
  rcases hs : pySplitEq (pyStrip l) with _ | ⟨a, _ | ⟨b, _ | ⟨c, rest⟩⟩⟩
  · rw [hs] at h; simp at h
  · rw [hs] at h; simp at h
  · rfl
  · rw [hs] at h; simp at h

/-- A line without exactly one separator fails the unpacking. -/
theorem parseLine_of_badLine {l : String} (h : goodLine l = false) :
    parseLine l = none := by
  unfold goodLine at h
  unfold parseLine
  rcases hs : pySplitEq (pyStrip l) with _ | ⟨a, _ | ⟨b, _ | ⟨c, rest⟩⟩⟩
  · rfl
  · rfl
  · rw [hs] at h; simp at h
  · rfl

/-- A file of well-formed lines parses to the split of every line. -/
theorem parseFile_ok_of_good (lines : List String)
    (h : ∀ l ∈ lines, goodLine l = true) :
    parseFile lines = .ok (lines.map splitKV) := by
  induction lines with
  | nil => rfl
  | cons l rest ih =>
    have hl := parseLine_of_goodLine (h l (by simp))
    have ih2 := ih (fun x hx => h x (by simp [hx]))
    simp [parseFile, hl, ih2]

/-- A file containing any malformed line fails to parse. -/
theorem parseFile_error_of_bad (lines : List String)
    (h : ∃ l ∈ lines, goodLine l = false) :
    parseFile lines = .error .malformedConfigLine := by
  induction lines with
  | nil =>
    rcases h with ⟨l, hl, _⟩
    cases hl
  | cons a rest ih =>
    rcases h with ⟨l, hl, hbad⟩
    rcases List.mem_cons.mp hl with rfl | hmem
    · simp [parseFile, parseLine_of_badLine hbad]
    · cases hga : goodLine a with
      | false => simp [parseFile, parseLine_of_badLine hga]
      | true =>
        have ih2 := ih ⟨l, hmem, hbad⟩
        simp [parseFile, parseLine_of_goodLine hga, ih2]

/-- **C6.** `resolve(file)` parses the file as `KEY=VALUE` lines with the
whitespace around each line trimmed, and fails with `MalformedConfigLine`
whenever some line does not split into exactly two fields on the
separator. -/
theorem environ_load_file_parsing (lines : List String) :
    ((∃ l ∈ lines, goodLine l = false) →
      loadFile lines = .error .malformedConfigLine) ∧
    ((∀ l ∈ lines, goodLine l = true) →
      parseFile lines = .ok (lines.map splitKV)) := by
  constructor
  · intro h
    unfold loadFile fileRaw
    rw [parseFile_error_of_bad lines h]
  · exact parseFile_ok_of_good lines

/-- Witness for C6: a malformed second line aborts resolution; a well-formed
file parses to its trimmed splits. -/
theorem environ_load_file_parsing_witness :
    loadFile ["MYSQL_HOST=h", "badline"] = .error .malformedConfigLine ∧
    parseFile ["  MYSQL_HOST = h ", "FOO=bar"] =
      .ok [("MYSQL_HOST ", " h"), ("FOO", "bar")] :=
  ⟨(environ_load_file_parsing ["MYSQL_HOST=h", "badline"]).1
     ⟨"badline", by decide, by decide⟩,
   (environ_load_file_parsing ["  MYSQL_HOST = h ", "FOO=bar"]).2 (by decide)⟩

/-- **C10.** A supplied file whose lines omit one of the six recognized
variable names makes `resolve(file)` raise a key-lookup error during the
mapping step; the defaults are never substituted on the file path. -/
theorem environ_load_file_missing_key (lines : List String)
    (pairs : List (String × String))
    (hp : parseFile lines = .ok pairs)
    (hmiss : ∃ v ∈ varNames, dictGet pairs v = none) :
    (∃ k ∈ varNames, loadFile lines = .error (.keyError k)) ∧
    ∀ cp, loadFile lines ≠ .ok cp := by
  have hload : ∃ k ∈ varNames, loadFile lines = .error (.keyError k) := by
    unfold loadFile fileRaw
    rw [hp]
    dsimp only
    unfold mapConfig
    cases h1 : dictGet pairs "MYSQL_HOST" with
    | none => exact ⟨"MYSQL_HOST", by decide, rfl⟩
    | some s1 =>
    cases h2 : dictGet pairs "MYSQL_PORT" with
    | none => exact ⟨"MYSQL_PORT", by decide, rfl⟩
    | some s2 =>
    cases h3 : dictGet pairs "MYSQL_USER" with
    | none => exact ⟨"MYSQL_USER", by decide, rfl⟩
    | some s3 =>
    cases h4 : dictGet pairs "MYSQL_PASSWORD" with
    | none => exact ⟨"MYSQL_PASSWORD", by decide, rfl⟩
    | some s4 =>
    cases h5 : dictGet pairs "MYSQL_DATABASE" with
    | none => exact ⟨"MYSQL_DATABASE", by decide, rfl⟩
    | some s5 =>
    cases h6 : dictGet pairs "MYSQL_AUTH" with
    | none => exact ⟨"MYSQL_AUTH", by decide, rfl⟩
    | some s6 =>
      exfalso
      rcases hmiss with ⟨v, hv, hnone⟩
      simp only [varNames, CONFIG_MAP, List.map_cons, List.map_nil,
                 List.mem_cons, List.not_mem_nil, or_false] at hv
      rcases hv with rfl | rfl | rfl | rfl | rfl | rfl
      · rw [h1] at hnone; cases hnone
      · rw [h2] at hnone; cases hnone
      · rw [h3] at hnone; cases hnone
      · rw [h4] at hnone; cases hnone
      · rw [h5] at hnone; cases hnone
      · rw [h6] at hnone; cases hnone
  refine ⟨hload, ?_⟩
  rcases hload with ⟨k, _, heq⟩
  intro cp hok
  rw [heq] at hok
  cases hok

/-- Witness for C10: a file defining only `MYSQL_HOST` fails with a
key-lookup error and never yields a parameter set. -/
theorem environ_load_file_missing_key_witness :
    (∃ k ∈ varNames, loadFile ["MYSQL_HOST=h"] = .error (.keyError k)) ∧
    ∀ cp, loadFile ["MYSQL_HOST=h"] ≠ .ok cp :=
  environ_load_file_missing_key ["MYSQL_HOST=h"] [("MYSQL_HOST", "h")]
    (by decide) ⟨"MYSQL_PORT", by decide, by decide⟩

/-- No string ending in the exit suffix printed by `Shell._exit` is the
close notice (they end in different characters). -/
theorem append_exiting_ne_closedMsg (m : String) :
    (m ++ "\nExiting.") ≠ closedMsg := by
  intro h
  have h2 : (m ++ "\nExiting.").data.reverse.head? = closedMsg.data.reverse.head? := by
    rw [h]
  rw [String.data_append, List.reverse_append] at h2
  rw [show ("\nExiting.".data).reverse = '.' :: ("gnitixE\x0a".data) from by decide]
    at h2
  simp [closedMsg] at h2

/-- The exit message of `Shell._exit` is never the close notice. -/
theorem exitMsg_ne_closedMsg (e : Exc) : exitMsg e ≠ closedMsg :=
  append_exiting_ne_closedMsg (excStr e)

/-- The version banner printed by the gateway self-test is never the close
notice (they start with different characters). -/
theorem mysqlMsg_ne_closedMsg (v : String) :
    ("MySQL v" ++ v ++ "\n") ≠ closedMsg := by
  intro h
  have h2 : ("MySQL v" ++ v ++ "\n").data.head? = closedMsg.data.head? := by
    rw [h]
  rw [show ("MySQL v" ++ v ++ "\n") = "MySQL v" ++ (v ++ "\n") from by
        rw [String.append_assoc]] at h2
  rw [String.data_append] at h2
  rw [show ("MySQL v".data) = 'M' :: "ySQL v".data from by decide] at h2
  simp [closedMsg] at h2

/-- A run ending in a user interrupt inside the main loop. -/
def cfgInterrupt : RunConfig :=
  { login := .ok (), attempt := .ok (), versionCheck := .ok "8.0.1",
    loopResult := .keyboardInterrupt }

/-- A run whose driver connect attempt is denied for bad credentials. -/
def cfgLoginFail : RunConfig :=
  { login := .ok (), attempt := .error ⟨1045, "denied"⟩,
    versionCheck := .ok "8.0.1", loopResult := .keyboardInterrupt }

/-- A run whose loop aborts on a driver error raised by a query. -/
def cfgQueryFail : RunConfig :=
  { login := .ok (), attempt := .ok (), versionCheck := .ok "8.0.1",
    loopResult := .dbError ⟨2013, "lost"⟩ }

/-- A run whose gateway self-test throws a driver error. -/
def cfgVersionFail : RunConfig :=
  { login := .ok (), attempt := .ok (),
    versionCheck := .error (.dbError ⟨2013, "lost"⟩),
    loopResult := .keyboardInterrupt }

/-- **C2.** Once the connection is acquired, every exit path of the
connection scope — normal completion of the body, an exception raised by a
later query, or a user interrupt — closes the connection exactly once and
prints exactly one close notification: first for the bare `with` construct
over an arbitrary body outcome, then for full `Shell.run` executions. -/
theorem connect_scope_closes_exactly_once :
    (∀ (btr : List Event) (res : BodyResult Unit),
      closeConnCount btr = 0 → closeMsgCount btr = 0 →
      closeConnCount (withConnect (.ok ()) (btr, res)).1 = 1 ∧
      closeMsgCount (withConnect (.ok ()) (btr, res)).1 = 1) ∧
    (∀ cfg : RunConfig, cfg.login = .ok () → cfg.attempt = .ok () →
      closeConnCount (shellRun cfg).1 = 1 ∧
      closeMsgCount (shellRun cfg).1 = 1) := by
  constructor
  · intro btr res h1 h2
    unfold closeConnCount closeMsgCount withConnect at *
    unfold closedMsg at h2
    constructor
    · simp [List.count_append, h1, List.count_cons, connectedMsg, closedMsg]
    · simp [List.count_append, h2, List.count_cons, connectedMsg, closedMsg]
  · intro cfg h1 h2
    obtain ⟨lg, att, vck, lr⟩ := cfg
    simp only at h1 h2
    subst h1
    subst h2
    cases vck with
    | ok v =>
      have d1 : ("MySQL v" ++ v ++ "\n") ≠ "\nConnection closed.\n" :=
        mysqlMsg_ne_closedMsg v
      have d2 : exitMsg lr ≠ "\nConnection closed.\n" := exitMsg_ne_closedMsg lr
      unfold shellRun withConnect shellBody queriesInit closeConnCount
        closeMsgCount bannerEvents
      constructor
      · simp [List.count_append, List.count_cons]
      · simp [List.count_append, List.count_cons, d1, d2, connectedMsg,
              closedMsg]
    | error e =>
      have d2 : exitMsg e ≠ "\nConnection closed.\n" := exitMsg_ne_closedMsg e
      unfold shellRun withConnect shellBody queriesInit closeConnCount
        closeMsgCount bannerEvents
      constructor
      · simp [List.count_append, List.count_cons]
      · simp [List.count_append, List.count_cons, d2, connectedMsg, closedMsg]

/-- Witness for C2: a trivial body completing normally, and a full run ending
in a user interrupt. -/
theorem connect_scope_closes_exactly_once_witness :
    (closeConnCount (withConnect (.ok ()) ([], .value ())).1 = 1 ∧
     closeMsgCount (withConnect (.ok ()) ([], .value ())).1 = 1) ∧
    (closeConnCount (shellRun cfgInterrupt).1 = 1 ∧
     closeMsgCount (shellRun cfgInterrupt).1 = 1) :=
  ⟨connect_scope_closes_exactly_once.1 [] (.value ()) (by decide) (by decide),
   connect_scope_closes_exactly_once.2 cfgInterrupt rfl rfl⟩

/-- **C8.** Constructing the gateway always issues the version-introspection
query; on success it prints the reported version and succeeds; if the
self-test throws, construction re-raises that very failure (never swallows
it), and in a full run the top-level handler observes exactly that
exception. -/
theorem queries_init_self_test (vc : Except Exc String) :
    Event.execute versionSQL ∈ (queriesInit vc).1 ∧
    (∀ v, vc = .ok v →
      queriesInit vc = ([Event.execute versionSQL,
                         Event.print ("MySQL v" ++ v ++ "\n")], .ok ())) ∧
    (∀ e, vc = .error e →
      queriesInit vc = ([Event.execute versionSQL], .error e)) ∧
    (∀ (cfg : RunConfig) (e : Exc), cfg.login = .ok () → cfg.attempt = .ok () →
      cfg.versionCheck = .error e → (shellRun cfg).2 = shellExcept e) := by
  refine ⟨?_, ?_, ?_, ?_⟩
  · cases vc <;> simp [queriesInit]
  · intro v hv
    subst hv
    rfl
  · intro e he
    subst he
    rfl
  · intro cfg e h1 h2 h3
    obtain ⟨lg, att, vck, lr⟩ := cfg
    simp only at h1 h2 h3
    subst h1
    subst h2
    subst h3
    rfl

/-- Witness for C8 at a successful and a failing self-test. -/
theorem queries_init_self_test_witness :
    queriesInit (.ok "8.0.1") =
      ([Event.execute versionSQL, Event.print ("MySQL v" ++ "8.0.1" ++ "\n")],
       .ok ()) ∧
    queriesInit (.error (.dbError ⟨2013, "lost"⟩)) =
      ([Event.execute versionSQL], .error (.dbError ⟨2013, "lost"⟩)) ∧
    (shellRun cfgVersionFail).2 = shellExcept (.dbError ⟨2013, "lost"⟩) :=
  ⟨(queries_init_self_test (.ok "8.0.1")).2.1 "8.0.1" rfl,
   (queries_init_self_test (.error (.dbError ⟨2013, "lost"⟩))).2.2.1
     (.dbError ⟨2013, "lost"⟩) rfl,
   (queries_init_self_test (.ok "")).2.2.2 cfgVersionFail
     (.dbError ⟨2013, "lost"⟩) rfl rfl rfl⟩

/-- The exit code of a run is the handler applied to the run-ending
exception. -/
theorem shellRun_exit_eq (cfg : RunConfig) :
    (shellRun cfg).2 = shellExcept (endExc cfg) := by
  obtain ⟨lg, att, vck, lr⟩ := cfg
  cases lg with
  | error e => rfl
  | ok u =>
    cases u
    cases att with
    | error de => rfl
    | ok u2 =>
      cases u2
      cases vck with
      | ok v => rfl
      | error e => rfl

/-- **C4.** Every run ends in an exception; the process exits with code 0
exactly on user-initiated cancellation (`KeyboardInterrupt`) or a classified
login failure (`IncorrectLogin`), and with code 1 on any other database
error or unhandled failure. -/
theorem shell_run_exit_codes (cfg : RunConfig) :
    ((endExc cfg = .keyboardInterrupt ∨
      ∃ m, endExc cfg = .connFailure (.incorrectLogin m)) →
      (shellRun cfg).2 = 0) ∧
    ((endExc cfg ≠ .keyboardInterrupt ∧
      ∀ m, endExc cfg ≠ .connFailure (.incorrectLogin m)) →
      (shellRun cfg).2 = 1) := by
  rw [shellRun_exit_eq]
  constructor
  · rintro (h | ⟨m, h⟩) <;> rw [h] <;> rfl
  · rintro ⟨hki, hlogin⟩
    cases he : endExc cfg with
    | keyboardInterrupt => exact absurd he hki
    | dbError e => rfl
    | other m => rfl
    | connFailure c =>
      cases c with
      | incorrectLogin m => exact absurd he (hlogin m)
      | accessDenied m => rfl
      | databaseNotFound m => rfl
      | unclassified e => rfl

/-- Witness for C4: interrupt exits 0, classified login failure exits 0,
another database error exits 1. -/
theorem shell_run_exit_codes_witness :
    (shellRun cfgInterrupt).2 = 0 ∧
    (shellRun cfgLoginFail).2 = 0 ∧
    (shellRun cfgQueryFail).2 = 1 :=
  ⟨(shell_run_exit_codes cfgInterrupt).1 (Or.inl (by decide)),
   (shell_run_exit_codes cfgLoginFail).1 (Or.inr ⟨incorrectLoginMsg, by decide⟩),
   (shell_run_exit_codes cfgQueryFail).2
     ⟨by decide, by intro m h; simp [endExc, cfgQueryFail] at h⟩⟩

end Dictionary
